import Mathlib

/-!
# GenPay-SL25BD : Ticket Inventory & Revenue Ledger — verification development

Shallow embedding of the ticketing / payout core of the GenPay backend
(controllers/payoutController.js, controllers/adminDashboardController.js,
controllers/adminPayoutController.js, and the mongoose models), together
with theorems settling the specification claims about it.

Monetary amounts are JavaScript numbers in the source; they are modelled as
rationals (`ℚ`), which captures the arithmetic the handlers perform
(`+`, `-`, `*`, comparisons, and two-decimal rounding via
`Math.round(x*100)/100`).  Quantities are modelled as `ℤ` because the source
lets arbitrary numeric quantities through (`Number.isInteger` is the only
shape check).  Database documents are lists of records; a mongoose
`find`/`findById` is a `List.find?` on the relevant key, a `save` /
`findByIdAndUpdate` is a keyed `List.map` update.
-/

namespace GenPay

abbrev Money := ℚ

/-- Payout lifecycle status (models/payout.js `status` enum). -/
inductive PStatus
  | pending
  | approved
  | rejected
  | completed
deriving DecidableEq, Repr

/-- Bank destination details (models/payout.js `bankDetails`,
host.payoutInfo in models/host.js). -/
structure BankDetails where
  bankName : String
  bankCode : String
  accountNumber : String
  accountName : String
deriving DecidableEq, Repr

/-- A host account (models/host.js): stored cached balance and optional
payout information. -/
structure HostRec where
  hid : Nat
  availableBalance : Money
  payoutInfo : Option BankDetails
deriving DecidableEq, Repr

/-- One ticket tier inside an event document
(models/event.js `tickets` subdocument array): `quantity` is the remaining
stock. -/
structure Tier where
  id : Nat
  name : String
  price : Money
  quantity : ℤ
deriving DecidableEq, Repr

/-- An event document (models/event.js), restricted to the fields the
inventory/ledger subsystem reads. -/
structure EventRec where
  eid : Nat
  host : Nat
  tickets : List Tier
deriving DecidableEq, Repr

/-- An issued ticket document (models/ticket.js), restricted to the fields
the subsystem reads.  `tid` is the mongo `_id`, `ticketId` the public
identifier. -/
structure TicketRec where
  tid : Nat
  event : Nat
  price : Money
  quantity : ℤ
  ticketId : String
  isUsed : Bool
  usedAt : Option Nat
deriving DecidableEq, Repr

/-- A payout document (models/payout.js). -/
structure Payout where
  pid : Nat
  host : Nat
  amount : Money
  fee : Money
  netAmount : Money
  bank : BankDetails
  status : PStatus
deriving DecidableEq, Repr

/-- A checkout transaction document (models/transaction.js). -/
structure Txn where
  xid : Nat
  event : Nat
  tickets : List Nat
  reference : String
  amount : Money
  fees : Money
  total : Money
deriving DecidableEq, Repr

/-- A payout approval / rejection entry (models/payoutApproval.js). -/
structure ApprovalRec where
  payout : Nat
  approvedAmount : Money
  notes : String
  approved : Bool
deriving DecidableEq, Repr

/-- The persistent store: one list per mongo collection. -/
structure DB where
  hosts : List HostRec
  events : List EventRec
  tickets : List TicketRec
  payouts : List Payout
  txns : List Txn
  approvals : List ApprovalRec
deriving DecidableEq, Repr

/-- Typed failures surfaced by the handlers (the HTTP `fail`/`error`
responses). -/
inductive Err
  | validation (field : String)
  | notFound (what : String)
  | authz
  | alreadyProcessed
  | insufficientBalance
  | missingBankDetails
  | alreadyUsed
  | conflict (tierName : String)
  | internal (what : String)
deriving DecidableEq, Repr

/-- Outcome of a handler: the response kind together with the state the
database was left in (failure responses can still leave behind writes that
happened before the failing step). -/
inductive OpOut
  | ok (db : DB)
  | err (e : Err) (db : DB)
deriving DecidableEq, Repr

/-- The database an operation left behind, success or not. -/
def OpOut.db : OpOut → DB
  | .ok d => d
  | .err _ d => d

def OpOut.isOk : OpOut → Bool
  | .ok _ => true
  | .err _ _ => false

/-! ## Collection lookups and keyed updates -/

def findHost (db : DB) (h : Nat) : Option HostRec :=
  db.hosts.find? (fun x => x.hid = h)

def findEvent (db : DB) (e : Nat) : Option EventRec :=
  db.events.find? (fun x => x.eid = e)

def findPayout (db : DB) (p : Nat) : Option Payout :=
  db.payouts.find? (fun x => x.pid = p)

/-- `Host.findByIdAndUpdate(hostId, { $inc: { availableBalance: d } })`. -/
def incHostBalance (db : DB) (h : Nat) (d : Money) : DB :=
  { db with hosts := db.hosts.map fun x =>
      if x.hid = h then { x with availableBalance := x.availableBalance + d } else x }

/-- `Host.findByIdAndUpdate(hostId, { availableBalance })`. -/
def setHostBalance (db : DB) (h : Nat) (b : Money) : DB :=
  { db with hosts := db.hosts.map fun x =>
      if x.hid = h then { x with availableBalance := b } else x }

/-- `payout.save()` after assigning `payout.status = st`; the payout
pre-save hook (models/payout.js) recomputes `netAmount = amount - fee`. -/
def setPayoutStatus (db : DB) (p : Nat) (st : PStatus) : DB :=
  { db with payouts := db.payouts.map fun x =>
      if x.pid = p then { x with status := st, netAmount := x.amount - x.fee } else x }

/-- `event.save()` restricted to the tier array mutation the purchase flow
performs. -/
def setEventTiers (db : DB) (e : Nat) (ts : List Tier) : DB :=
  { db with events := db.events.map fun x =>
      if x.eid = e then { x with tickets := ts } else x }

/-! ## Fee Schedule (adminDashboardController.js `getDashboardStats`,
lines 140–212)

The source computes, per transaction amount, a Paystack (processor) fee and
a Genpay (platform) fee through a fixed chain of range tests.
`Math.round(x * 100) / 100` (round to 2 decimals, halves away from zero
toward +∞ for the positive values that arise) is modelled on `ℚ` by
`⌊100·x + 1/2⌋ / 100`. -/

def round2 (x : ℚ) : ℚ := ((⌊x * 100 + 1/2⌋ : ℤ) : ℚ) / 100

/-- The fee tier chain from `getDashboardStats`: returns
`(paystackFee, genpayFee)`. -/
def computeFees (amount : ℚ) : ℚ × ℚ :=
  if amount ≤ 2499 then
    (round2 (amount * (15/1000)), round2 (amount * (2/100)))
  else if amount ≤ 126666 then
    (round2 (amount * (15/1000)) + 100, round2 (amount * (2/100)))
  else if amount ≤ 399999 then (2000, 2000)
  else if amount ≤ 599999 then (2000, 3000)
  else if amount ≤ 1999999 then (2000, 4000)
  else if amount ≤ 4999999 then (2000, 5500)
  else if amount ≤ 7999999 then (2000, 8000)
  else (2000, 10000)

/-- The dashboard aggregation step: amounts failing
`isNaN(amount) || amount <= 0` are skipped (contribute nothing); NaN cannot
arise on `ℚ`. -/
def dashboardCuts (totals : List ℚ) : ℚ × ℚ :=
  totals.foldl
    (fun acc a =>
      if a ≤ 0 then acc
      else (acc.1 + (computeFees a).1, acc.2 + (computeFees a).2))
    (0, 0)

/-! ## Revenue Ledger (payoutController.js)

Two balance computations occur in the source.  The inline one
(`requestWithdrawal` lines 479–485, `updatePayoutStatus` lines 580–586)
sums `price * quantity` over the tickets of the host's events and subtracts
the amounts of `completed` payouts, with no data validation.  The helper
`updateHostBalance` (lines 338–400) does the same but skips records failing
its validity checks and then caches the result on the host document. -/

/-- `Event.find({ host }).distinct('_id')`. -/
def hostEventIds (db : DB) (h : Nat) : List Nat :=
  (db.events.filter (fun e => e.host = h)).map (fun e => e.eid)

/-- `Ticket.find({ event: { $in: events } })`. -/
def hostTickets (db : DB) (h : Nat) : List TicketRec :=
  db.tickets.filter (fun t => t.event ∈ hostEventIds db h)

/-- `Payout.find({ host, status: 'completed' })`. -/
def hostCompletedPayouts (db : DB) (h : Nat) : List Payout :=
  db.payouts.filter (fun p => p.host = h ∧ p.status = PStatus.completed)

/-- Inline gross revenue, no validity skips
(`tickets.reduce((sum, t) => sum + t.price * t.quantity, 0)`). -/
def inlineRevenue (db : DB) (h : Nat) : Money :=
  (hostTickets db h).foldl (fun s t => s + t.price * (t.quantity : ℚ)) 0

/-- Inline withdrawn sum, no validity skips. -/
def inlineWithdrawn (db : DB) (h : Nat) : Money :=
  (hostCompletedPayouts db h).foldl (fun s p => s + p.amount) 0

/-- The derived (recomputed-on-read) balance used by `requestWithdrawal`
and `updatePayoutStatus`. -/
def derivedBalance (db : DB) (h : Nat) : Money :=
  inlineRevenue db h - inlineWithdrawn db h

/-- `updateHostBalance` (payoutController.js lines 338–400): recomputes the
balance skipping invalid records, caches it on the host document, and
returns it.  On `ℚ`/`ℤ` the `Number.isFinite` / `Number.isInteger` halves
of the validity checks always pass; the sign checks remain. -/
def validatedRevenue (db : DB) (h : Nat) : Money :=
  (hostTickets db h).foldl
    (fun s t => if t.price < 0 ∨ t.quantity < 0 then s
                else s + t.price * (t.quantity : ℚ)) 0

def validatedWithdrawn (db : DB) (h : Nat) : Money :=
  (hostCompletedPayouts db h).foldl
    (fun s p => if p.amount < 0 then s else s + p.amount) 0

def updateHostBalance (db : DB) (h : Nat) : Money × DB :=
  (validatedRevenue db h - validatedWithdrawn db h,
   setHostBalance db h (validatedRevenue db h - validatedWithdrawn db h))

/-! ## Payout Workflow -/

/-- `payoutInfo` completeness check of `requestWithdrawal`
(`!host.payoutInfo || !bankName || !bankCode || !accountNumber ||
!accountName`; the falsy case for a present string is the empty string). -/
def bankComplete : Option BankDetails → Bool
  | none => false
  | some b =>
      ¬(b.bankName = "" ∨ b.bankCode = "" ∨ b.accountNumber = "" ∨ b.accountName = "")

/-- models/payout.js bankDetails.accountNumber `match: /^\d{10}$/`. -/
def isTenDigits (s : String) : Bool :=
  s.length = 10 ∧ s.toList.all Char.isDigit

/-- `requestWithdrawal` (payoutController.js lines 459–549).  The
authenticated host document is `req.user`; we model the auth middleware's
lookup explicitly.  `newPid` stands for the fresh document id
`Payout.create` assigns.  Mongoose validation on `Payout.create` is the
only step after the handler's own checks that can fail: with the
completeness check already passed, the remaining constraint is the 10-digit
account number pattern (a thrown `ValidationError` surfaces as the generic
500 handler). -/
def requestWithdrawal (db : DB) (hostId : Nat) (amount : Money) (newPid : Nat) : OpOut :=
  match findHost db hostId with
  | none => .err (.notFound "host") db
  | some host =>
    if amount < 150 then .err (.validation "amount") db
    else
      match host.payoutInfo with
      | none => .err .missingBankDetails db
      | some b =>
        if b.bankName = "" ∨ b.bankCode = "" ∨ b.accountNumber = "" ∨ b.accountName = "" then
          .err .missingBankDetails db
        else
          let availableBalance := derivedBalance db hostId
          if amount > availableBalance then .err .insufficientBalance db
          else if ¬ isTenDigits b.accountNumber then .err (.internal "payout validation") db
          else
            .ok { db with payouts := db.payouts ++
              [{ pid := newPid, host := hostId, amount := amount, fee := 150,
                 netAmount := amount - 150, bank := b, status := .pending }] }

/-- `updatePayoutStatus` (payoutController.js lines 552–649): admin moves a
payout to an arbitrary status; only the transition *to* `completed` from a
non-`completed` status re-verifies the derived balance and debits the
cached one. -/
def updatePayoutStatus (db : DB) (payoutId : Nat) (status : PStatus) : OpOut :=
  match findPayout db payoutId with
  | none => .err (.notFound "payout") db
  | some payout =>
    if status = .completed ∧ payout.status ≠ .completed then
      match findHost db payout.host with
      | none => .err (.notFound "host") db
      | some _ =>
        let availableBalance := derivedBalance db payout.host
        if payout.amount > availableBalance then .err .insufficientBalance db
        else
          let db₁ := incHostBalance db payout.host (-payout.amount)
          .ok (setPayoutStatus db₁ payoutId status)
    else
      .ok (setPayoutStatus db payoutId status)

/-- `approvePayout` (adminPayoutController.js, src/unnamed/part_004 lines
114–208): admin approval of a payout.  Checks only that the payout exists
and is `pending`; then records a `PayoutApproval` (whose post-save hook
sets the payout to `completed`), debits the cached host balance by the
approved amount with no re-verification against the derived balance, and
saves the payout as `completed`.  The proof-of-payment upload is an
external collaborator and is not modelled; the `!approvedAmount` falsiness
guard is the `approvedAmount = 0` test on numbers. -/
def approvePayout (db : DB) (payoutId : Nat) (approvedAmount : Money) (notes : String) : OpOut :=
  if approvedAmount = 0 then .err (.validation "approvedAmount") db
  else
    match findPayout db payoutId with
    | none => .err (.notFound "payout") db
    | some payout =>
      if payout.status ≠ .pending then .err .alreadyProcessed db
      else
        let db₁ := { db with approvals := db.approvals ++
          [{ payout := payoutId, approvedAmount := approvedAmount,
             notes := notes, approved := true }] }
        let db₂ := setPayoutStatus db₁ payoutId .completed
        let db₃ := incHostBalance db₂ payout.host (-approvedAmount)
        .ok (setPayoutStatus db₃ payoutId .completed)

/-- `rejectPayout` (adminPayoutController.js, src/unnamed/part_004 lines
314–421): sets the payout to `rejected` and records a rejection entry.
The source contains no check of the payout's current status. -/
def rejectPayout (db : DB) (payoutId : Nat) (reason : String) : OpOut :=
  match findPayout db payoutId with
  | none => .err (.notFound "payout") db
  | some _ =>
    let db₁ := setPayoutStatus db payoutId .rejected
    let db₂ := { db₁ with approvals := db₁.approvals ++
      [{ payout := payoutId, approvedAmount := 0,
         notes := reason, approved := false }] }
    .ok db₂

/-! ## Ticket Lifecycle: check-in
(adminDashboardController.js `checkInTicket`, lines 2376–2464; the
identically-behaving copy in eventController.js is the one wired into
routing — both fail closed on `isUsed`). -/

/-- The `Ticket.findOne` query: by event plus either the public `ticketId`
string or, when the caller's string parses as an ObjectId, the internal
`_id`.  The caller-supplied identifier is modelled as the pair of the raw
string `q` and its ObjectId reading `oid` (`none` when it is not a valid
ObjectId). -/
def ticketMatches (eventId : Nat) (q : String) (oid : Option Nat) (t : TicketRec) : Bool :=
  t.event = eventId ∧ (t.ticketId = q ∨ oid = some t.tid)

/-- The successful check-in write (`ticket.isUsed = true; ticket.usedAt =
new Date(); ticket.save()`), including the backfill of an empty public
`ticketId` with a fresh uuid (`fresh`). -/
def stampTicket (db : DB) (tk : TicketRec) (fresh : String) (now : Nat) : DB :=
  { db with tickets := db.tickets.map fun t =>
      if t.tid = tk.tid then
        { t with
          ticketId := if tk.ticketId = "" then fresh else tk.ticketId,
          isUsed := true,
          usedAt := some now }
      else t }

/-- `checkInTicket`: authenticates the host, requires the host to own the
event, looks the ticket up, fails closed if already used, otherwise stamps
`isUsed`/`usedAt` (and backfills an empty public id with a fresh uuid,
modelled by `fresh`) and saves. -/
def checkInTicket (db : DB) (hostId : Nat) (eventId : Nat)
    (q : String) (oid : Option Nat) (fresh : String) (now : Nat) : OpOut :=
  match findHost db hostId with
  | none => .err (.notFound "host") db
  | some _ =>
    if q = "" then .err (.validation "ticketId") db
    else
      match findEvent db eventId with
      | none => .err (.notFound "event") db
      | some ev =>
        if ev.host ≠ hostId then .err .authz db
        else
          match db.tickets.find? (ticketMatches eventId q oid) with
          | none => .err (.notFound "ticket") db
          | some ticket =>
            if ticket.isUsed then .err .alreadyUsed db
            else .ok (stampTicket db ticket fresh now)

/-! ## Ticket Inventory: purchase
(adminDashboardController.js `purchaseTicket`, lines 1936–2273).

The handler walks the caller's line items against the in-memory event
document: per item it validates the customer data, resolves the tier,
validates the price, checks the remaining stock, decrements the in-memory
tier quantity, and creates one `Ticket` document per unit *immediately*
(each `Ticket.create` is a committed write).  Only after the whole loop
does it `event.save()` the decremented quantities, credit the host's
cached balance with the subtotal, and create the transaction record, so a
mid-loop failure responds with an error while the earlier per-unit ticket
writes stay in the database. -/

/-- One entry of the request's `tickets` array.  `hasCustomer` stands for
the presence of `customer.email`, `customer.firstName`,
`customer.lastName`; `quantity` carries the caller's value (the handler
defaults an absent field to 1 before this point). -/
structure LineItem where
  ticketId : Nat
  hasCustomer : Bool
  quantity : ℤ
deriving DecidableEq, Repr

/-- In-memory decrement of a tier inside the event document
(`eventTicket.quantity -= quantity`). -/
def decTier (ts : List Tier) (tid : Nat) (q : ℤ) : List Tier :=
  ts.map fun t => if t.id = tid then { t with quantity := t.quantity - q } else t

/-- The per-unit `Ticket.create` loop (`for (let i = 0; i < quantity; i++)`):
creates `max 0 q` ticket documents with price snapshot `price`, quantity 1,
fresh ids drawn from the counter `c`.  Returns the new store, the created
ids (in order), and the advanced counter. -/
def createUnits (eventId : Nat) (price : Money) : Nat → Nat → DB → DB × List Nat × Nat
  | 0, c, db => (db, [], c)
  | n + 1, c, db =>
      let db' := { db with tickets := db.tickets ++
        [{ tid := c, event := eventId, price := price, quantity := 1,
           ticketId := toString c, isUsed := false, usedAt := none }] }
      let r := createUnits eventId price n (c + 1) db'
      (r.1, c :: r.2.1, r.2.2)

/-- Outcome of the line-item loop: on failure the response error plus the
store as left by the writes already committed; on success the decremented
in-memory tiers, the store with the created tickets, the running subtotal,
the created ticket ids and the advanced id counter. -/
inductive ItemsOut
  | fail (e : Err) (db : DB)
  | ok (tiers : List Tier) (db : DB) (subtotal : Money) (created : List Nat) (c : Nat)
deriving Repr

/-- The line-item loop of `purchaseTicket` (lines 1973–2106). -/
def processItems (eventId : Nat) : List Tier → DB → Money → List Nat → Nat →
    List LineItem → ItemsOut
  | tiers, db, subtotal, created, c, [] => .ok tiers db subtotal created c
  | tiers, db, subtotal, created, c, it :: rest =>
    if ¬ it.hasCustomer then .fail (.validation "customer") db
    else
      match tiers.find? (fun t => t.id = it.ticketId) with
      | none => .fail (.notFound "tier") db
      | some eventTicket =>
        if eventTicket.price < 0 then .fail (.validation "price") db
        else if eventTicket.quantity < it.quantity then .fail (.conflict eventTicket.name) db
        else
          let ticketAmount := eventTicket.price * (it.quantity : ℚ)
          let tiers' := decTier tiers it.ticketId it.quantity
          let r := createUnits eventId eventTicket.price it.quantity.toNat c db
          processItems eventId tiers' r.1 (subtotal + ticketAmount) (created ++ r.2.1) r.2.2 rest

/-- `purchaseTicket`: input validation, event lookup, the line-item loop,
total validation, `event.save()`, host balance credit, transaction
creation.  `c` seeds the fresh ids for tickets and the transaction. -/
def purchaseTicket (db : DB) (eventId : Nat) (items : List LineItem)
    (reference : String) (fees : Money) (c : Nat) : OpOut :=
  if items = [] then .err (.validation "input") db
  else
    match findEvent db eventId with
    | none => .err (.notFound "event") db
    | some ev =>
      match processItems eventId ev.tickets db 0 [] c items with
      | .fail e db' => .err e db'
      | .ok tiers' db' subtotal created c' =>
        let totalAmount := subtotal + fees
        if totalAmount ≤ 0 then .err (.validation "total") db'
        else
          let db₂ := setEventTiers db' eventId tiers'
          match findHost db₂ ev.host with
          | none => .err (.notFound "host") db₂
          | some _ =>
            let db₃ := incHostBalance db₂ ev.host subtotal
            .ok { db₃ with txns := db₃.txns ++
              [{ xid := c', event := eventId, tickets := created,
                 reference := reference, amount := subtotal, fees := fees,
                 total := totalAmount }] }

/-! ## Specification-side helpers

These two definitions follow the wording of the specification (not the
source) and are used to compare the source-derived functions against the
spec's arithmetic. -/

/-- Unit price of the tier with identifier `x` (0 if absent); used to state
the spec's "tier unit price × quantity" subtotal. -/
def tierPrice (ts : List Tier) (x : Nat) : Money :=
  ((ts.find? (fun t => t.id = x)).map (fun t => t.price)).getD 0

/-- The spec's checkout subtotal: sum over line items of tier unit price
times requested quantity. -/
def specSubtotal (ts : List Tier) (items : List LineItem) : Money :=
  (items.map (fun it => tierPrice ts it.ticketId * (it.quantity : ℚ))).sum

/-- Frame of the purchase loop's writes: every collection except the issued
tickets is untouched, and ticket records are only ever appended. -/
def TicketFrame (db db' : DB) : Prop :=
  db'.hosts = db.hosts ∧ db'.events = db.events ∧ db'.payouts = db.payouts ∧
  db'.txns = db.txns ∧ db'.approvals = db.approvals ∧
  ∃ l, db'.tickets = db.tickets ++ l

/-! ## Concrete example state (for witnesses and counterexamples)

A single host (id 1) with complete bank details, one event (id 100) with
one tier, one sold ticket worth 500 × 2 = 1000 of gross revenue, and two
pending payouts of 600 each — the spec's double-withdrawal scenario. -/

def exBank : BankDetails :=
  { bankName := "GTB", bankCode := "058",
    accountNumber := "0123456789", accountName := "Ann" }

def exPayout₁ : Payout :=
  { pid := 201, host := 1, amount := 600, fee := 150, netAmount := 450,
    bank := exBank, status := .pending }

def exPayout₂ : Payout :=
  { pid := 202, host := 1, amount := 600, fee := 150, netAmount := 450,
    bank := exBank, status := .pending }

def exDb : DB :=
  { hosts := [{ hid := 1, availableBalance := 0, payoutInfo := some exBank }],
    events := [{ eid := 100, host := 1,
                 tickets := [{ id := 10, name := "VIP", price := 500, quantity := 2 }] }],
    tickets := [{ tid := 1000, event := 100, price := 500, quantity := 2,
                  ticketId := "T1", isUsed := false, usedAt := none }],
    payouts := [exPayout₁, exPayout₂],
    txns := [], approvals := [] }

/-- Variant of `exDb` whose first payout is already `completed` (for the
reject-after-processing scenario). -/
def exDbCompleted : DB :=
  { exDb with payouts := [{ exPayout₁ with status := .completed }, exPayout₂] }

/-- The example event document of `exDb`. -/
def exEvent : EventRec :=
  { eid := 100, host := 1,
    tickets := [{ id := 10, name := "VIP", price := 500, quantity := 2 }] }

/-- The state `exDb` is left in by a successful purchase of 2 VIP units
(line item ⟨10, true, 2⟩, reference "r3", fees 30, id counter 5000). -/
def exDbAfterSale : DB :=
  { hosts := [{ hid := 1, availableBalance := 1000, payoutInfo := some exBank }],
    events := [{ eid := 100, host := 1,
                 tickets := [{ id := 10, name := "VIP", price := 500, quantity := 0 }] }],
    tickets := [{ tid := 1000, event := 100, price := 500, quantity := 2,
                  ticketId := "T1", isUsed := false, usedAt := none },
                { tid := 5000, event := 100, price := 500, quantity := 1,
                  ticketId := "5000", isUsed := false, usedAt := none },
                { tid := 5001, event := 100, price := 500, quantity := 1,
                  ticketId := "5001", isUsed := false, usedAt := none }],
    payouts := [exPayout₁, exPayout₂],
    txns := [{ xid := 5002, event := 100, tickets := [5000, 5001], reference := "r3",
               amount := 1000, fees := 30, total := 1030 }],
    approvals := [] }

/-- The state `exDb` is left in by a purchase that issued one 500-ticket
for its first line item and then failed on its second. -/
def exDbAfterFail : DB :=
  { exDb with tickets := exDb.tickets ++
      [{ tid := 5000, event := 100, price := 500, quantity := 1,
         ticketId := "5000", isUsed := false, usedAt := none }] }

/-- Variant of `exDb` whose only tier is free (price 0) with 5 remaining
units (for the negative-quantity purchase scenario). -/
def exDbFree : DB :=
  { exDb with events := [{ eid := 100, host := 1,
                           tickets := [{ id := 10, name := "Free", price := 0, quantity := 5 }] }] }

/-! ## General helper lemmas -/

/-- `List.find?` after a pointwise rewrite that keeps non-matches
non-matching and keeps the found element matching. -/
theorem find?_map_pres {α : Type} (p : α → Bool) (f : α → α) :
    ∀ (l : List α) (x : α), l.find? p = some x →
      (∀ y ∈ l, p y = false → p (f y) = false) → p (f x) = true →
      (l.map f).find? p = some (f x) := by
  intro l
  induction l with
  | nil => intro x hx _ _; simp at hx
  | cons a t ih =>
    intro x hx hneg hpos
    by_cases ha : p a = true
    · rw [List.find?_cons_of_pos _ ha] at hx
      injection hx with hx
      subst hx
      simp [List.find?_cons_of_pos _ hpos]
    · have ha' : p a = false := by simpa using ha
      rw [List.find?_cons_of_neg _ (by simp [ha'])] at hx
      have hfa : p (f a) = false := hneg a (by simp) ha'
      rw [List.map_cons, List.find?_cons_of_neg _ (by simp [hfa])]
      exact ih x hx (fun y hy => hneg y (by simp [hy])) hpos

/-- Two elements of a list whose key-image is `Nodup` and that share a key
are equal. -/
theorem eq_of_key_nodup {α : Type} {β : Type} (key : α → β) :
    ∀ (l : List α), (l.map key).Nodup →
      ∀ x ∈ l, ∀ y ∈ l, key x = key y → x = y := by
  intro l
  induction l with
  | nil => intro _ x hx; simp at hx
  | cons a t ih =>
    intro hnd x hx y hy hk
    simp only [List.map_cons, List.nodup_cons] at hnd
    rcases List.mem_cons.mp hx with hxa | hxt
    · rcases List.mem_cons.mp hy with hya | hyt
      · rw [hxa, hya]
      · exact absurd (by rw [hxa] at hk; rw [hk]; exact List.mem_map_of_mem key hyt) hnd.1
    · rcases List.mem_cons.mp hy with hya | hyt
      · exact absurd (by rw [hya] at hk; rw [← hk]; exact List.mem_map_of_mem key hxt) hnd.1
      · exact ih hnd.2 x hxt y hyt hk

/-- A fold that adds `f t` except where `cond` holds equals the plain sum
when `cond` holds nowhere in the list. -/
theorem foldl_skip_eq_sum {α : Type} (f : α → ℚ) (cond : α → Prop) [DecidablePred cond] :
    ∀ (l : List α) (s : ℚ), (∀ t ∈ l, ¬ cond t) →
      l.foldl (fun s t => if cond t then s else s + f t) s
        = s + (l.map f).sum := by
  intro l
  induction l with
  | nil => intro s _; simp
  | cons a t ih =>
    intro s h
    rw [List.foldl_cons, if_neg (h a (by simp)),
      ih (s + f a) (fun x hx => h x (by simp [hx]))]
    simp [add_assoc]

/-- A plain additive fold is the sum. -/
theorem foldl_add_eq_sum {α : Type} (f : α → ℚ) :
    ∀ (l : List α) (s : ℚ), l.foldl (fun s t => s + f t) s = s + (l.map f).sum := by
  intro l
  induction l with
  | nil => intro s; simp
  | cons a t ih => intro s; simp only [List.foldl_cons]; rw [ih]; simp [add_assoc]

/-- Appending a non-`completed` payout does not change the set of
`completed` payouts of any host. -/
theorem hostCompletedPayouts_append_non_completed (db : DB) (h : Nat) (p : Payout)
    (hp : p.status ≠ .completed) :
    hostCompletedPayouts { db with payouts := db.payouts ++ [p] } h
      = hostCompletedPayouts db h := by
  show List.filter _ (db.payouts ++ [p]) = _
  rw [List.filter_append]
  simp [hostCompletedPayouts, hp]

/-- Appending a non-`completed` payout does not change the derived
balance. -/
theorem derivedBalance_append_non_completed (db : DB) (h : Nat) (p : Payout)
    (hp : p.status ≠ .completed) :
    derivedBalance { db with payouts := db.payouts ++ [p] } h = derivedBalance db h := by
  unfold derivedBalance inlineWithdrawn
  rw [hostCompletedPayouts_append_non_completed db h p hp]
  rfl

/-- `findPayout` after `setPayoutStatus` on the same id returns the found
payout with its status replaced and `netAmount` recomputed. -/
theorem findPayout_setPayoutStatus (db : DB) (pid : Nat) (st : PStatus)
    (p : Payout) (hf : findPayout db pid = some p) :
    findPayout (setPayoutStatus db pid st) pid
      = some { p with status := st, netAmount := p.amount - p.fee } := by
  have hp : p.pid = pid := by
    have h := List.find?_some (hf : db.payouts.find? _ = some p)
    simpa using h
  have key := find?_map_pres (fun x : Payout => x.pid = pid)
    (fun x => if x.pid = pid then { x with status := st, netAmount := x.amount - x.fee } else x)
    db.payouts p hf
    (fun y _ hy => by
      have hny : ¬ y.pid = pid := by simpa using hy
      simp [hny])
    (by simp [hp])
  show (db.payouts.map _).find? _ = _
  rw [key]
  simp [hp]

/-- `round2` of a non-negative rational is non-negative. -/
theorem round2_nonneg {x : ℚ} (hx : 0 ≤ x) : 0 ≤ round2 x := by
  unfold round2
  have h : (0 : ℤ) ≤ ⌊x * 100 + 1/2⌋ := by
    rw [Int.le_floor]
    push_cast
    nlinarith
  positivity

/-! ## Claim C5 — fee schedule tiers and non-negativity -/

/-- C5: `computeFees` maps 2,499 to the lowest tier (1.5% / 2.0%, rounded
to 2 decimals), 2,500 to the next tier (same percentages plus the fixed
100 processor surcharge), follows the fixed tier table on every higher
range, and never yields a negative processor or platform fee on a positive
gross amount. -/
theorem computeFees_tier_table :
    computeFees 2499 = (round2 (2499 * (15/1000)), round2 (2499 * (2/100))) ∧
    computeFees 2500 = (round2 (2500 * (15/1000)) + 100, round2 (2500 * (2/100))) ∧
    (∀ a : ℚ, 2500 ≤ a → a ≤ 126666 →
       computeFees a = (round2 (a * (15/1000)) + 100, round2 (a * (2/100)))) ∧
    (∀ a : ℚ, 126667 ≤ a → a ≤ 399999 → computeFees a = (2000, 2000)) ∧
    (∀ a : ℚ, 400000 ≤ a → a ≤ 599999 → computeFees a = (2000, 3000)) ∧
    (∀ a : ℚ, 600000 ≤ a → a ≤ 1999999 → computeFees a = (2000, 4000)) ∧
    (∀ a : ℚ, 2000000 ≤ a → a ≤ 4999999 → computeFees a = (2000, 5500)) ∧
    (∀ a : ℚ, 5000000 ≤ a → a ≤ 7999999 → computeFees a = (2000, 8000)) ∧
    (∀ a : ℚ, 7999999 < a → computeFees a = (2000, 10000)) ∧
    (∀ a : ℚ, 0 < a → 0 ≤ (computeFees a).1 ∧ 0 ≤ (computeFees a).2) := by
  refine ⟨?_, ?_, ?_, ?_, ?_, ?_, ?_, ?_, ?_, ?_⟩
  · simp [computeFees]
  · unfold computeFees
    norm_num
  · intro a h1 h2
    unfold computeFees
    rw [if_neg (by linarith), if_pos (by linarith)]
  · intro a h1 h2
    unfold computeFees
    rw [if_neg (by linarith), if_neg (by linarith), if_pos (by linarith)]
  · intro a h1 h2
    unfold computeFees
    rw [if_neg (by linarith), if_neg (by linarith), if_neg (by linarith),
      if_pos (by linarith)]
  · intro a h1 h2
    unfold computeFees
    rw [if_neg (by linarith), if_neg (by linarith), if_neg (by linarith),
      if_neg (by linarith), if_pos (by linarith)]
  · intro a h1 h2
    unfold computeFees
    rw [if_neg (by linarith), if_neg (by linarith), if_neg (by linarith),
      if_neg (by linarith), if_neg (by linarith), if_pos (by linarith)]
  · intro a h1 h2
    unfold computeFees
    rw [if_neg (by linarith), if_neg (by linarith), if_neg (by linarith),
      if_neg (by linarith), if_neg (by linarith), if_neg (by linarith),
      if_pos (by linarith)]
  · intro a h1
    unfold computeFees
    rw [if_neg (by linarith), if_neg (by linarith), if_neg (by linarith),
      if_neg (by linarith), if_neg (by linarith), if_neg (by linarith),
      if_neg (by linarith)]
  · intro a ha
    unfold computeFees
    have h1 : 0 ≤ round2 (a * (15/1000)) := round2_nonneg (by positivity)
    have h2 : 0 ≤ round2 (a * (2/100)) := round2_nonneg (by positivity)
    split_ifs <;> refine ⟨?_, ?_⟩ <;> simp only [] <;> norm_num <;> linarith

/-- Witness for C5: concrete instantiations of every quantified conjunct. -/
theorem computeFees_tier_table_witness :
    computeFees 50000 = (round2 (50000 * (15/1000)) + 100, round2 (50000 * (2/100))) ∧
    computeFees 200000 = (2000, 2000) ∧
    computeFees 500000 = (2000, 3000) ∧
    computeFees 1000000 = (2000, 4000) ∧
    computeFees 3000000 = (2000, 5500) ∧
    computeFees 6000000 = (2000, 8000) ∧
    computeFees 9000000 = (2000, 10000) ∧
    0 ≤ (computeFees 7).1 ∧ 0 ≤ (computeFees 7).2 := by
  obtain ⟨-, -, h3, h4, h5, h6, h7, h8, h9, h10⟩ := computeFees_tier_table
  refine ⟨h3 50000 (by norm_num) (by norm_num), h4 200000 (by norm_num) (by norm_num),
    h5 500000 (by norm_num) (by norm_num), h6 1000000 (by norm_num) (by norm_num),
    h7 3000000 (by norm_num) (by norm_num), h8 6000000 (by norm_num) (by norm_num),
    h9 9000000 (by norm_num), (h10 7 (by norm_num)).1, (h10 7 (by norm_num)).2⟩

/-! ## Claim C4 — ledger consistency of the recomputed balance -/

/-- C4: under the stored-data invariants the mongoose schemas enforce
(ticket `price ≥ 0`, `quantity ≥ 0`, payout `amount ≥ 0`), the balance
recomputed by `updateHostBalance` equals G − W with G the sum of
`price × quantity` over the issued tickets of the host's events and W the
sum of the gross amounts of the host's `completed` payouts; the same value
is what gets cached on the host document; and appending any payout that is
not `completed` (in particular a `pending` or `rejected` one) leaves the
recomputed balance unchanged. -/
theorem updateHostBalance_ledger (db : DB) (h : Nat)
    (hT : ∀ t ∈ db.tickets, 0 ≤ t.price ∧ 0 ≤ t.quantity)
    (hP : ∀ p ∈ db.payouts, 0 ≤ p.amount) :
    (updateHostBalance db h).1 =
      ((hostTickets db h).map (fun t => t.price * (t.quantity : ℚ))).sum
        - ((hostCompletedPayouts db h).map (fun p => p.amount)).sum ∧
    (updateHostBalance db h).2 = setHostBalance db h (updateHostBalance db h).1 ∧
    (∀ p : Payout, p.status ≠ .completed →
      (updateHostBalance { db with payouts := db.payouts ++ [p] } h).1
        = (updateHostBalance db h).1) := by
  have hA : ∀ t ∈ hostTickets db h, ¬ (t.price < 0 ∨ t.quantity < 0) := by
    intro t ht
    have h0 := hT t (List.mem_of_mem_filter ht)
    simp only [not_or, not_lt]
    exact h0
  have hB : ∀ p ∈ hostCompletedPayouts db h, ¬ (p.amount < 0) := by
    intro p hp
    simpa [not_lt] using hP p (List.mem_of_mem_filter hp)
  refine ⟨?_, rfl, ?_⟩
  · show validatedRevenue db h - validatedWithdrawn db h = _
    rw [validatedRevenue, validatedWithdrawn,
      foldl_skip_eq_sum _ _ (hostTickets db h) 0 hA,
      foldl_skip_eq_sum _ _ (hostCompletedPayouts db h) 0 hB]
    ring
  · intro p hp
    show validatedRevenue _ h - validatedWithdrawn _ h
        = validatedRevenue db h - validatedWithdrawn db h
    have he : validatedRevenue { db with payouts := db.payouts ++ [p] } h
        = validatedRevenue db h := rfl
    have hc : hostCompletedPayouts { db with payouts := db.payouts ++ [p] } h
        = hostCompletedPayouts db h := by
      show List.filter _ (db.payouts ++ [p]) = _
      rw [List.filter_append]
      simp [hostCompletedPayouts, hp]
    rw [he, validatedWithdrawn, validatedWithdrawn, hc]

/-- Witness for C4: the ledger identity and the pending-payout frame at the
concrete example state. -/
theorem updateHostBalance_ledger_witness :
    (updateHostBalance exDb 1).1 =
      ((hostTickets exDb 1).map (fun t => t.price * (t.quantity : ℚ))).sum
        - ((hostCompletedPayouts exDb 1).map (fun p => p.amount)).sum ∧
    (updateHostBalance { exDb with payouts := exDb.payouts ++ [exPayout₂] } 1).1
      = (updateHostBalance exDb 1).1 := by
  have h := updateHostBalance_ledger exDb 1 (by decide) (by decide)
  exact ⟨h.1, h.2.2 exPayout₂ (by decide)⟩

/-! ## Claim C6 — `requestWithdrawal` contract -/

/-- C6: `requestWithdrawal` fails on an amount below the fixed 150 fee,
then on incomplete bank destination details, then on an amount exceeding
the derived balance evaluated at request time; otherwise (with the stored
account number in the 10-digit shape `savePayoutInfo` and the payout
schema enforce) it appends exactly one `pending` payout carrying
`fee = 150` and `netAmount = amount − 150`, and a subsequent derived
balance read is unchanged because the `pending` payout is excluded from
the withdrawn sum. -/
theorem requestWithdrawal_contract (db : DB) (hostId : Nat) (amount : Money)
    (newPid : Nat) (host : HostRec) (hh : findHost db hostId = some host) :
    (amount < 150 →
       requestWithdrawal db hostId amount newPid = .err (.validation "amount") db) ∧
    (¬ amount < 150 → bankComplete host.payoutInfo = false →
       requestWithdrawal db hostId amount newPid = .err .missingBankDetails db) ∧
    (∀ b, host.payoutInfo = some b → bankComplete host.payoutInfo = true →
       ¬ amount < 150 → amount > derivedBalance db hostId →
       requestWithdrawal db hostId amount newPid = .err .insufficientBalance db) ∧
    (∀ b, host.payoutInfo = some b → bankComplete host.payoutInfo = true →
       isTenDigits b.accountNumber = true →
       ¬ amount < 150 → ¬ amount > derivedBalance db hostId →
       requestWithdrawal db hostId amount newPid =
         .ok { db with payouts := db.payouts ++
           [{ pid := newPid, host := hostId, amount := amount, fee := 150,
              netAmount := amount - 150, bank := b, status := .pending }] } ∧
       derivedBalance { db with payouts := db.payouts ++
           [{ pid := newPid, host := hostId, amount := amount, fee := 150,
              netAmount := amount - 150, bank := b, status := .pending }] } hostId
         = derivedBalance db hostId) := by
  refine ⟨?_, ?_, ?_, ?_⟩
  · intro hlt
    unfold requestWithdrawal
    rw [hh]
    dsimp only
    rw [if_pos hlt]
  · intro hge hbc
    unfold requestWithdrawal
    rw [hh]
    dsimp only
    rw [if_neg hge]
    cases hb : host.payoutInfo with
    | none => rfl
    | some b =>
      rw [hb] at hbc
      simp only [bankComplete, decide_eq_false_iff_not, not_not] at hbc
      dsimp only
      rw [if_pos hbc]
  · intro b hb hbc hge hgt
    unfold requestWithdrawal
    rw [hb] at hbc
    simp only [bankComplete, decide_eq_true_eq] at hbc
    rw [hh]
    dsimp only
    rw [if_neg hge, hb]
    dsimp only
    rw [if_neg hbc, if_pos hgt]
  · intro b hb hbc hten hge hle
    unfold requestWithdrawal
    rw [hb] at hbc
    simp only [bankComplete, decide_eq_true_eq] at hbc
    refine ⟨?_, derivedBalance_append_non_completed db hostId _ (by simp)⟩
    rw [hh]
    dsimp only
    rw [if_neg hge, hb]
    dsimp only
    rw [if_neg hbc, if_neg hle, if_neg (by simp [hten])]

/-- Witness for C6: a successful 500 withdrawal against the example state
(balance 1000), and the failure branches at concrete inputs. -/
theorem requestWithdrawal_contract_witness :
    requestWithdrawal exDb 1 500 300 =
      .ok { exDb with payouts := exDb.payouts ++
        [{ pid := 300, host := 1, amount := 500, fee := 150,
           netAmount := 500 - 150, bank := exBank, status := .pending }] } ∧
    derivedBalance { exDb with payouts := exDb.payouts ++
        [{ pid := 300, host := 1, amount := 500, fee := 150,
           netAmount := 500 - 150, bank := exBank, status := .pending }] } 1
      = derivedBalance exDb 1 ∧
    requestWithdrawal exDb 1 100 300 = .err (.validation "amount") exDb ∧
    requestWithdrawal exDb 1 2000 300 = .err .insufficientBalance exDb := by
  have hbal : derivedBalance exDb 1 = 1000 := by
    norm_num +decide [derivedBalance, inlineRevenue, inlineWithdrawn, hostTickets,
      hostCompletedPayouts, hostEventIds, exDb, exPayout₁, exPayout₂, exBank, List.filter]
  have h := requestWithdrawal_contract exDb 1 500 300
    { hid := 1, availableBalance := 0, payoutInfo := some exBank } (by decide)
  have h2 := requestWithdrawal_contract exDb 1 100 300
    { hid := 1, availableBalance := 0, payoutInfo := some exBank } (by decide)
  have h3 := requestWithdrawal_contract exDb 1 2000 300
    { hid := 1, availableBalance := 0, payoutInfo := some exBank } (by decide)
  have hs := h.2.2.2 exBank (by decide) (by decide) (by decide) (by norm_num)
    (by rw [hbal]; norm_num)
  exact ⟨hs.1, hs.2, h2.1 (by norm_num),
    h3.2.2.1 exBank (by decide) (by decide) (by norm_num) (by rw [hbal]; norm_num)⟩

/-! ## Claim C9 — `updatePayoutStatus` stored-balance frame -/

/-- C9: `updatePayoutStatus` touches the stored `availableBalance` only on
a transition to `completed` from a non-`completed` current status, in which
case it verifies that the derived balance covers `payout.amount` (failing
with `InsufficientBalance` otherwise) and decrements the payout's host's
stored balance by exactly `payout.amount`; every other accepted transition
— any current status to any other target, including moving a `completed`
payout back to `pending` or `approved` — leaves every host record
unchanged. -/
theorem updatePayoutStatus_balance_frame (db : DB) (pid : Nat) (st : PStatus)
    (p : Payout) (hf : findPayout db pid = some p) :
    (¬(st = .completed ∧ p.status ≠ .completed) →
       updatePayoutStatus db pid st = .ok (setPayoutStatus db pid st) ∧
       (setPayoutStatus db pid st).hosts = db.hosts) ∧
    (st = .completed → p.status ≠ .completed →
       ∀ h, findHost db p.host = some h →
         (p.amount > derivedBalance db p.host →
            updatePayoutStatus db pid st = .err .insufficientBalance db) ∧
         (¬ p.amount > derivedBalance db p.host →
            updatePayoutStatus db pid st =
              .ok (setPayoutStatus (incHostBalance db p.host (-p.amount)) pid st) ∧
            (setPayoutStatus (incHostBalance db p.host (-p.amount)) pid st).hosts
              = db.hosts.map fun x =>
                  if x.hid = p.host then
                    { x with availableBalance := x.availableBalance - p.amount }
                  else x)) := by
  constructor
  · intro hno
    unfold updatePayoutStatus
    rw [hf]
    dsimp only
    rw [if_neg hno]
    exact ⟨rfl, rfl⟩
  · intro hst hp h hh
    unfold updatePayoutStatus
    rw [hf]
    dsimp only
    rw [if_pos ⟨hst, hp⟩, hh]
    dsimp only
    constructor
    · intro hgt
      rw [if_pos hgt]
    · intro hle
      rw [if_neg hle]
      refine ⟨rfl, ?_⟩
      show (incHostBalance db p.host (-p.amount)).hosts = _
      unfold incHostBalance
      dsimp only
      exact List.map_congr_left (fun a _ => by split <;> simp [sub_eq_add_neg])

/-- Witness for C9: against the example state, rejecting leaves host
records untouched and completing decrements by the payout amount. -/
theorem updatePayoutStatus_balance_frame_witness :
    (updatePayoutStatus exDb 201 PStatus.rejected
        = .ok (setPayoutStatus exDb 201 .rejected) ∧
      (setPayoutStatus exDb 201 .rejected).hosts = exDb.hosts) ∧
    updatePayoutStatus exDb 201 PStatus.completed =
      .ok (setPayoutStatus (incHostBalance exDb exPayout₁.host (-exPayout₁.amount))
        201 .completed) := by
  have hbal : derivedBalance exDb 1 = 1000 := by
    norm_num +decide [derivedBalance, inlineRevenue, inlineWithdrawn, hostTickets,
      hostCompletedPayouts, hostEventIds, exDb, exPayout₁, exPayout₂, exBank, List.filter]
  have h1 := (updatePayoutStatus_balance_frame exDb 201 .rejected exPayout₁
    (by decide)).1 (by simp)
  have h2 := ((updatePayoutStatus_balance_frame exDb 201 .completed exPayout₁
      (by decide)).2 rfl (by decide)
      { hid := 1, availableBalance := 0, payoutInfo := some exBank } (by decide)).2
    (by show ¬ (600:ℚ) > derivedBalance exDb 1; rw [hbal]; norm_num)
  exact ⟨h1, h2.1⟩

/-! ## Claim C1 — approval-time balance re-verification

The claim says `approve(payoutId, approvedAmount, proof)` re-verifies
`approvedAmount ≤ balanceOf(host)` before completing.  The routed handler
`approvePayout` (adminPayoutController.js) performs no such check: it
requires only that the payout is `pending`, then completes it and debits
the cached balance unconditionally.  The derived-balance re-verification
exists only in the separate `updatePayoutStatus` handler (claim C9). -/

/-- C1 counterexample: with derived balance 1,000 and two pending payouts
of 600, both `approvePayout` calls succeed — the second does not fail with
`InsufficientBalance` as the claim requires. -/
theorem approvePayout_counterexample :
    derivedBalance exDb 1 = 1000 ∧
    (approvePayout exDb 201 600 "").isOk = true ∧
    derivedBalance ((approvePayout exDb 201 600 "").db) 1 = 400 ∧
    (approvePayout ((approvePayout exDb 201 600 "").db) 202 600 "").isOk = true := by
  refine ⟨?_, ?_, ?_, ?_⟩ <;>
    norm_num +decide [approvePayout, findPayout, setPayoutStatus, incHostBalance,
      OpOut.db, OpOut.isOk, derivedBalance, inlineRevenue, inlineWithdrawn,
      hostTickets, hostCompletedPayouts, hostEventIds,
      exDb, exPayout₁, exPayout₂, exBank, List.filter, List.find?]

/-- C1 (amended): `approvePayout` on a `pending` payout transitions it to
`completed` and decrements the stored host balance by the approved amount
with no re-verification against the derived ledger balance (so both of two
600 approvals against a 1,000 balance succeed); a non-`pending` payout is
refused as already processed.  Events, issued tickets and transactions are
untouched. -/
theorem approvePayout_no_reverification (db : DB) (pid : Nat) (amt : Money)
    (notes : String) (p : Payout) (hf : findPayout db pid = some p) (ha : amt ≠ 0) :
    (p.status ≠ .pending → approvePayout db pid amt notes = .err .alreadyProcessed db) ∧
    (p.status = .pending →
       ∃ db', approvePayout db pid amt notes = .ok db' ∧
         findPayout db' pid
           = some { p with status := .completed, netAmount := p.amount - p.fee } ∧
         db'.hosts = db.hosts.map (fun x =>
           if x.hid = p.host then
             { x with availableBalance := x.availableBalance - amt } else x) ∧
         db'.events = db.events ∧ db'.tickets = db.tickets ∧ db'.txns = db.txns) := by
  constructor
  · intro hnp
    unfold approvePayout
    rw [if_neg ha, hf]
    dsimp only
    rw [if_pos hnp]
  · intro hp
    unfold approvePayout
    rw [if_neg ha, hf]
    dsimp only
    rw [if_neg (by simp [hp])]
    refine ⟨_, rfl, ?_, ?_, rfl, rfl, rfl⟩
    · have h1 := findPayout_setPayoutStatus
        { db with approvals := db.approvals ++
          [{ payout := pid, approvedAmount := amt, notes := notes, approved := true }] }
        pid .completed p hf
      have h2 : findPayout
          (incHostBalance
            (setPayoutStatus
              { db with approvals := db.approvals ++
                [{ payout := pid, approvedAmount := amt, notes := notes, approved := true }] }
              pid .completed)
            p.host (-amt)) pid
          = some { p with status := .completed, netAmount := p.amount - p.fee } := h1
      exact findPayout_setPayoutStatus _ pid .completed
        { p with status := .completed, netAmount := p.amount - p.fee } h2
    · show db.hosts.map (fun x =>
          if x.hid = p.host then
            { x with availableBalance := x.availableBalance + (-amt) } else x) = _
      refine List.map_congr_left (fun a _ => ?_)
      split <;> simp [sub_eq_add_neg]

/-- Witness for C1 (amended): approving the first pending payout of the
example state succeeds and debits the cached balance. -/
theorem approvePayout_no_reverification_witness :
    ∃ db', approvePayout exDb 201 600 "" = .ok db' ∧
      findPayout db' 201 = some { exPayout₁ with
                                  status := .completed,
                                  netAmount := exPayout₁.amount - exPayout₁.fee } ∧
      db'.hosts = exDb.hosts.map (fun x =>
        if x.hid = exPayout₁.host then
          { x with availableBalance := x.availableBalance - 600 } else x) ∧
      db'.events = exDb.events ∧ db'.tickets = exDb.tickets ∧ db'.txns = exDb.txns := by
  exact (approvePayout_no_reverification exDb 201 600 "" exPayout₁
    (by decide) (by norm_num)).2 rfl

/-! ## Claim C7 — `rejectPayout` and already-processed payouts

The claim says `reject` succeeds only on a `pending` payout and refuses
`rejected`/`completed` ones as `AlreadyProcessed`.  The source has no
status check at all: any payout that exists is moved to `rejected`. -/

/-- C7 counterexample: rejecting an already-`completed` payout succeeds
and flips its status to `rejected`, instead of failing with
`AlreadyProcessed` and leaving it unchanged. -/
theorem rejectPayout_counterexample :
    (findPayout exDbCompleted 201).map (fun p => p.status) = some PStatus.completed ∧
    (rejectPayout exDbCompleted 201 "reason").isOk = true ∧
    (findPayout ((rejectPayout exDbCompleted 201 "reason").db) 201).map (fun p => p.status)
      = some PStatus.rejected := by
  refine ⟨?_, ?_, ?_⟩ <;>
    norm_num +decide [rejectPayout, findPayout, setPayoutStatus, OpOut.db, OpOut.isOk,
      exDbCompleted, exDb, exPayout₁, exPayout₂, exBank, List.find?]

/-- C7 (amended): `rejectPayout` fails only when the payout does not exist
(`NotFound`, state unchanged); on any existing payout — whatever its
current status, including `rejected` and `completed` — it succeeds,
transitions the payout to `rejected`, appends a rejection entry, and
leaves hosts (hence every stored balance), events, tickets and
transactions untouched. -/
theorem rejectPayout_any_status (db : DB) (pid : Nat) (reason : String) :
    (findPayout db pid = none →
       rejectPayout db pid reason = .err (.notFound "payout") db) ∧
    (∀ p, findPayout db pid = some p →
       ∃ db', rejectPayout db pid reason = .ok db' ∧
         findPayout db' pid
           = some { p with status := .rejected, netAmount := p.amount - p.fee } ∧
         db'.hosts = db.hosts ∧ db'.events = db.events ∧
         db'.tickets = db.tickets ∧ db'.txns = db.txns ∧
         db'.approvals = db.approvals ++
           [{ payout := pid, approvedAmount := 0, notes := reason, approved := false }]) := by
  constructor
  · intro hn
    unfold rejectPayout
    rw [hn]
  · intro p hf
    unfold rejectPayout
    rw [hf]
    dsimp only
    refine ⟨_, rfl, ?_, rfl, rfl, rfl, rfl, rfl⟩
    exact findPayout_setPayoutStatus db pid .rejected p hf

/-- Witness for C7 (amended): rejecting the completed payout of the example
state succeeds with the stated frame. -/
theorem rejectPayout_any_status_witness :
    ∃ db', rejectPayout exDbCompleted 201 "r" = .ok db' ∧
      findPayout db' 201 = some { exPayout₁ with
                                  status := .rejected,
                                  netAmount := exPayout₁.amount - exPayout₁.fee } ∧
      db'.hosts = exDbCompleted.hosts ∧ db'.events = exDbCompleted.events ∧
      db'.tickets = exDbCompleted.tickets ∧ db'.txns = exDbCompleted.txns ∧
      db'.approvals = exDbCompleted.approvals ++
        [{ payout := 201, approvedAmount := 0, notes := "r", approved := false }] := by
  exact (rejectPayout_any_status exDbCompleted 201 "r").2
    { exPayout₁ with status := .completed } (by decide)

/-! ## Frame lemmas for the purchase loop -/

theorem ticketFrame_rfl (db : DB) : TicketFrame db db :=
  ⟨rfl, rfl, rfl, rfl, rfl, [], by simp⟩

theorem ticketFrame_trans {a b c : DB} (h1 : TicketFrame a b) (h2 : TicketFrame b c) :
    TicketFrame a c := by
  obtain ⟨u1, u2, u3, u4, u5, l1, hl1⟩ := h1
  obtain ⟨v1, v2, v3, v4, v5, l2, hl2⟩ := h2
  exact ⟨v1.trans u1, v2.trans u2, v3.trans u3, v4.trans u4, v5.trans u5,
    l1 ++ l2, by rw [hl2, hl1, List.append_assoc]⟩

theorem createUnits_frame (eventId : Nat) (price : Money) :
    ∀ (n c : Nat) (db : DB), TicketFrame db (createUnits eventId price n c db).1 := by
  intro n
  induction n with
  | zero => intro c db; exact ticketFrame_rfl db
  | succ n ih =>
    intro c db
    refine ticketFrame_trans (b := { db with tickets := db.tickets ++
      [{ tid := c, event := eventId, price := price, quantity := 1,
         ticketId := toString c, isUsed := false, usedAt := none }] }) ?_ ?_
    · exact ⟨rfl, rfl, rfl, rfl, rfl, _, rfl⟩
    · exact ih (c + 1) _

theorem processItems_frame (eventId : Nat) :
    ∀ (items : List LineItem) (tiers : List Tier) (db : DB) (s : Money)
      (cr : List Nat) (c : Nat),
      (∀ e db', processItems eventId tiers db s cr c items = .fail e db' →
        TicketFrame db db') ∧
      (∀ tiers' db' s' cr' c',
        processItems eventId tiers db s cr c items = .ok tiers' db' s' cr' c' →
        TicketFrame db db') := by
  intro items
  induction items with
  | nil =>
    intro tiers db s cr c
    constructor
    · intro e db' h
      unfold processItems at h
      cases h
    · intro tiers' db' s' cr' c' h
      unfold processItems at h
      cases h
      exact ticketFrame_rfl db
  | cons it rest ih =>
    intro tiers db s cr c
    constructor
    · intro e db' h
      simp only [processItems] at h
      split at h
      · cases h
        exact ticketFrame_rfl db
      · split at h
        · cases h
          exact ticketFrame_rfl db
        · split at h
          · cases h
            exact ticketFrame_rfl db
          · split at h
            · cases h
              exact ticketFrame_rfl db
            · exact ticketFrame_trans (createUnits_frame eventId _ _ c db)
                ((ih _ _ _ _ _).1 e db' h)
    · intro tiers' db' s' cr' c' h
      simp only [processItems] at h
      split at h
      · cases h
      · split at h
        · cases h
        · split at h
          · cases h
          · split at h
            · cases h
            · exact ticketFrame_trans (createUnits_frame eventId _ _ c db)
                ((ih _ _ _ _ _).2 tiers' db' s' cr' c' h)

/-! ## Claim C2 — state left behind by a purchase that fails mid-list

The claim says a purchase failing on a later line item leaves *all* state
unchanged.  The source creates each unit's `Ticket` document inside the
loop, before the failure point of any later item, and those writes are
never compensated; only the tier decrement (`event.save()` comes after the
loop), the balance credit and the transaction record are withheld. -/

/-- C2 counterexample: a two-item purchase whose second item names an
unknown tier fails, and indeed persists no tier decrement, balance credit
or transaction — but one issued-ticket record from the first item remains,
contradicting "no issued ticket records persist". -/
theorem purchaseTicket_partial_counterexample :
    (purchaseTicket exDb 100 [⟨10, true, 1⟩, ⟨99, true, 1⟩] "r1" 10 5000).isOk = false ∧
    ((purchaseTicket exDb 100 [⟨10, true, 1⟩, ⟨99, true, 1⟩] "r1" 10 5000).db).hosts
      = exDb.hosts ∧
    ((purchaseTicket exDb 100 [⟨10, true, 1⟩, ⟨99, true, 1⟩] "r1" 10 5000).db).events
      = exDb.events ∧
    ((purchaseTicket exDb 100 [⟨10, true, 1⟩, ⟨99, true, 1⟩] "r1" 10 5000).db).txns
      = exDb.txns ∧
    ((purchaseTicket exDb 100 [⟨10, true, 1⟩, ⟨99, true, 1⟩] "r1" 10 5000).db).tickets.length
      = exDb.tickets.length + 1 := by
  refine ⟨?_, ?_, ?_, ?_, ?_⟩ <;>
    norm_num +decide [purchaseTicket, processItems, createUnits, decTier, findEvent,
      findHost, setEventTiers, incHostBalance, OpOut.db, OpOut.isOk,
      exDb, exPayout₁, exPayout₂, exBank, List.find?]

/-- C2 (amended): when a purchase fails while processing its line items
(unknown tier, invalid price, insufficient remaining stock, or malformed
item data), no transaction record is created, the host's balance is not
credited, no tier decrement is persisted and payouts are untouched — but
the issued-ticket records already created for earlier line items persist. -/
theorem purchaseTicket_partial_failure (db : DB) (eventId : Nat)
    (items : List LineItem) (ref : String) (fees : Money) (c : Nat) (e : Err) (db' : DB)
    (h : purchaseTicket db eventId items ref fees c = .err e db')
    (he : e = .notFound "tier" ∨ e = .validation "price" ∨
          e = .validation "customer" ∨ ∃ n, e = .conflict n) :
    db'.hosts = db.hosts ∧ db'.events = db.events ∧ db'.payouts = db.payouts ∧
    db'.txns = db.txns ∧ ∃ l, db'.tickets = db.tickets ++ l := by
  unfold purchaseTicket at h
  split at h
  · cases h
    rcases he with he | he | he | ⟨n, he⟩ <;> simp at he
  · split at h
    · cases h
      rcases he with he | he | he | ⟨n, he⟩ <;> simp at he
    · rename_i ev hev
      split at h
      · rename_i e0 db0 hpi
        cases h
        obtain ⟨f1, f2, f3, f4, f5, l, hl⟩ :=
          (processItems_frame eventId items ev.tickets db 0 [] c).1 _ _ hpi
        exact ⟨f1, f2, f3, f4, l, hl⟩
      · rename_i tiers' db0 sub cr c' hpi
        dsimp only at h
        split at h
        · cases h
          rcases he with he | he | he | ⟨n, he⟩ <;> simp at he
        · split at h
          · cases h
            rcases he with he | he | he | ⟨n, he⟩ <;> simp at he
          · cases h

/-- Witness for C2 (amended): the concrete two-item failing purchase. -/
theorem purchaseTicket_partial_failure_witness :
    exDbAfterFail.hosts = exDb.hosts ∧ exDbAfterFail.events = exDb.events ∧
    exDbAfterFail.payouts = exDb.payouts ∧ exDbAfterFail.txns = exDb.txns ∧
    ∃ l, exDbAfterFail.tickets = exDb.tickets ++ l := by
  have hrun : purchaseTicket exDb 100 [⟨10, true, 1⟩, ⟨99, true, 1⟩] "r1" 10 5000
      = .err (.notFound "tier") exDbAfterFail := by
    norm_num +decide [purchaseTicket, processItems, createUnits, decTier, findEvent,
      exDb, exDbAfterFail, exPayout₁, exPayout₂, exBank, List.find?]
  exact purchaseTicket_partial_failure exDb 100 _ "r1" 10 5000 _ _ hrun (Or.inl rfl)

/-! ## Claim C10 — a successful purchase credits exactly the subtotal -/

/-- `List.find?` by tier id commutes with the in-memory decrement (ids are
untouched). -/
theorem find?_decTier (ts : List Tier) (tid : Nat) (q : ℤ) (x : Nat) :
    (decTier ts tid q).find? (fun t => t.id = x)
      = (ts.find? (fun t => t.id = x)).map
          (fun t => if t.id = tid then { t with quantity := t.quantity - q } else t) := by
  unfold decTier
  induction ts with
  | nil => rfl
  | cons a t ih =>
    have hid : ((if a.id = tid then { a with quantity := a.quantity - q } else a) : Tier).id
        = a.id := by
      split <;> rfl
    simp only [List.map_cons, List.find?_cons, hid]
    by_cases hax : a.id = x
    · simp [hax]
    · simp [hax, ih]

/-- The in-memory tier decrement does not change any tier's looked-up unit
price. -/
theorem tierPrice_decTier (ts : List Tier) (tid : Nat) (q : ℤ) (x : Nat) :
    tierPrice (decTier ts tid q) x = tierPrice ts x := by
  unfold tierPrice
  rw [find?_decTier]
  cases ts.find? (fun t => t.id = x) with
  | none => rfl
  | some a =>
    simp only [Option.map_some']
    split <;> rfl

/-- The spec subtotal over a decremented tier list is unchanged. -/
theorem specSubtotal_decTier (ts : List Tier) (tid : Nat) (q : ℤ)
    (items : List LineItem) :
    specSubtotal (decTier ts tid q) items = specSubtotal ts items := by
  unfold specSubtotal
  congr 1
  exact List.map_congr_left (fun it _ => by rw [tierPrice_decTier])

theorem specSubtotal_cons (ts : List Tier) (it : LineItem) (rest : List LineItem) :
    specSubtotal ts (it :: rest)
      = tierPrice ts it.ticketId * (it.quantity : ℚ) + specSubtotal ts rest := by
  unfold specSubtotal
  simp

/-- On success, the running subtotal of the purchase loop is the spec's
"tier unit price × quantity" sum over the line items, read against the
tier list the loop started from. -/
theorem processItems_subtotal (eventId : Nat) :
    ∀ (items : List LineItem) (tiers : List Tier) (db : DB) (s : Money)
      (cr : List Nat) (c : Nat) (tiers' : List Tier) (db' : DB) (s' : Money)
      (cr' : List Nat) (c' : Nat),
      processItems eventId tiers db s cr c items = .ok tiers' db' s' cr' c' →
      s' = s + specSubtotal tiers items := by
  intro items
  induction items with
  | nil =>
    intro tiers db s cr c tiers' db' s' cr' c' h
    unfold processItems at h
    cases h
    simp [specSubtotal]
  | cons it rest ih =>
    intro tiers db s cr c tiers' db' s' cr' c' h
    unfold processItems at h
    split at h
    · cases h
    · split at h
      · cases h
      · rename_i eventTicket heq
        split at h
        · cases h
        · split at h
          · cases h
          · dsimp only at h
            have hrec := ih _ _ _ _ _ _ _ _ _ _ h
            rw [specSubtotal_decTier] at hrec
            have hp : tierPrice tiers it.ticketId = eventTicket.price := by
              unfold tierPrice
              rw [heq]
              rfl
            rw [specSubtotal_cons, hp, hrec]
            ring

/-- C10: a successful purchase credits the event host's stored
`availableBalance` by exactly the ticket subtotal — the sum over line
items of tier unit price × quantity — and records the caller-supplied fees
only on the created transaction, whose `amount` is the subtotal and whose
`total` is subtotal + fees; payouts are untouched, so no fee amount ever
reaches the host's balance. -/
theorem purchaseTicket_credits_subtotal (db : DB) (eventId : Nat)
    (items : List LineItem) (ref : String) (fees : Money) (c : Nat)
    (ev : EventRec) (hev : findEvent db eventId = some ev) (db' : DB)
    (h : purchaseTicket db eventId items ref fees c = .ok db') :
    db'.hosts = db.hosts.map (fun x =>
      if x.hid = ev.host then
        { x with availableBalance :=
            x.availableBalance + specSubtotal ev.tickets items } else x) ∧
    (∃ xid ids, db'.txns = db.txns ++
      [{ xid := xid, event := eventId, tickets := ids, reference := ref,
         amount := specSubtotal ev.tickets items, fees := fees,
         total := specSubtotal ev.tickets items + fees }]) ∧
    db'.payouts = db.payouts := by
  unfold purchaseTicket at h
  split at h
  · cases h
  · split at h
    · rename_i hnone
      rw [hev] at hnone
      cases hnone
    · rename_i ev₀ hev₀
      rw [hev] at hev₀
      injection hev₀ with hev₀
      subst hev₀
      split at h
      · cases h
      · rename_i tiers' db0 sub cr c' hpi
        dsimp only at h
        split at h
        · cases h
        · split at h
          · cases h
          · cases h
            obtain ⟨f1, f2, f3, f4, f5, l, hl⟩ :=
              (processItems_frame eventId items ev.tickets db 0 [] c).2 _ _ _ _ _ hpi
            have hsub : sub = specSubtotal ev.tickets items := by
              have := processItems_subtotal eventId items ev.tickets db 0 [] c _ _ _ _ _ hpi
              simpa using this
            refine ⟨?_, ⟨c', cr, ?_⟩, ?_⟩
            · show ((setEventTiers db0 eventId tiers').hosts).map _ = _
              have hh : (setEventTiers db0 eventId tiers').hosts = db.hosts := f1
              rw [hh, hsub]
            · show ((setEventTiers db0 eventId tiers').txns) ++ _ = _
              have ht : (setEventTiers db0 eventId tiers').txns = db.txns := f4
              rw [ht, hsub]
            · show (setEventTiers db0 eventId tiers').payouts = _
              exact f3

/-- Witness for C10: the concrete successful purchase of 2 VIP units. -/
theorem purchaseTicket_credits_subtotal_witness :
    exDbAfterSale.hosts = exDb.hosts.map (fun x =>
      if x.hid = exEvent.host then
        { x with availableBalance :=
            x.availableBalance + specSubtotal exEvent.tickets [⟨10, true, 2⟩] } else x) ∧
    (∃ xid ids, exDbAfterSale.txns = exDb.txns ++
      [{ xid := xid, event := 100, tickets := ids, reference := "r3",
         amount := specSubtotal exEvent.tickets [⟨10, true, 2⟩], fees := 30,
         total := specSubtotal exEvent.tickets [⟨10, true, 2⟩] + 30 }]) ∧
    exDbAfterSale.payouts = exDb.payouts := by
  have hrun : purchaseTicket exDb 100 [⟨10, true, 2⟩] "r3" 30 5000 = .ok exDbAfterSale := by
    norm_num +decide [purchaseTicket, processItems, createUnits, decTier, findEvent,
      findHost, setEventTiers, incHostBalance, exDb, exDbAfterSale, exPayout₁,
      exPayout₂, exBank, List.find?]
  exact purchaseTicket_credits_subtotal exDb 100 _ "r3" 30 5000 exEvent (by decide) _ hrun

/-! ## Claim C8 — stock bounds and the missing `quantity ≥ 1` validation

The purchase handler checks `eventTicket.quantity < quantity` and
decrements, but never validates that the requested quantity is positive.
A negative requested quantity passes every check
(`remaining < q` is false, the unit-creation loop runs zero times, the
totals stay positive when fees are) and `remaining -= q` *increases* the
persisted remaining stock above the tier's total. -/

/-- C8 failing input, evaluated on the code: purchasing quantity −1 from
the free tier (price 0, remaining = total = 5) of `exDbFree` with fees 10
succeeds, and the persisted remaining quantity becomes 6 > 5, violating
`0 ≤ remaining ≤ total`. -/
theorem purchaseTicket_negative_quantity :
    ((findEvent exDbFree 100).map (fun e => e.tickets.map (fun t => t.quantity)))
      = some [5] ∧
    (purchaseTicket exDbFree 100 [⟨10, true, -1⟩] "r2" 10 5000).isOk = true ∧
    ((purchaseTicket exDbFree 100 [⟨10, true, -1⟩] "r2" 10 5000).db).events.map
      (fun e => e.tickets.map (fun t => t.quantity)) = [[6]] := by
  refine ⟨?_, ?_, ?_⟩ <;>
    norm_num +decide [purchaseTicket, processItems, createUnits, decTier, findEvent,
      findHost, setEventTiers, incHostBalance, OpOut.db, OpOut.isOk,
      exDbFree, exDb, exPayout₁, exPayout₂, exBank, List.find?]

/-! ## Claim C3 — check-in lifecycle -/

/-- `checkInTicket` either leaves the store untouched (all failure paths)
or stamps the one matched, previously-unused ticket. -/
theorem checkInTicket_db_cases (db : DB) (hostId eventId : Nat) (q : String)
    (oid : Option Nat) (fresh : String) (now : Nat) :
    (checkInTicket db hostId eventId q oid fresh now).db = db ∨
    ∃ tk, db.tickets.find? (ticketMatches eventId q oid) = some tk ∧
      tk.isUsed = false ∧
      (checkInTicket db hostId eventId q oid fresh now).db
        = stampTicket db tk fresh now := by
  unfold checkInTicket
  split
  · exact Or.inl rfl
  split
  · exact Or.inl rfl
  split
  · exact Or.inl rfl
  split
  · exact Or.inl rfl
  split
  · exact Or.inl rfl
  split
  · exact Or.inl rfl
  · rename_i tk htk hnu
    exact Or.inr ⟨tk, htk, by simpa using hnu, rfl⟩

/-- Outcome of a check-in with its lookups in hand: success stamps the
matched unused ticket, an already-used ticket is refused with the store
untouched. -/
theorem checkIn_stamp (db : DB) (hostId eventId : Nat) (q : String) (oid : Option Nat)
    (fresh : String) (now : Nat) (h0 : HostRec) (ev : EventRec) (tk : TicketRec)
    (hh0 : findHost db hostId = some h0) (hq : q ≠ "")
    (hev : findEvent db eventId = some ev) (hauth : ev.host = hostId)
    (htk : db.tickets.find? (ticketMatches eventId q oid) = some tk) :
    (tk.isUsed = false →
      checkInTicket db hostId eventId q oid fresh now
        = .ok (stampTicket db tk fresh now)) ∧
    (tk.isUsed = true →
      checkInTicket db hostId eventId q oid fresh now = .err .alreadyUsed db) := by
  constructor
  · intro hu
    unfold checkInTicket
    rw [hh0]
    dsimp only
    rw [if_neg hq, hev]
    dsimp only
    rw [if_neg (by simp [hauth]), htk]
    dsimp only
    rw [if_neg (by simp [hu])]
  · intro hu
    unfold checkInTicket
    rw [hh0]
    dsimp only
    rw [if_neg hq, hev]
    dsimp only
    rw [if_neg (by simp [hauth]), htk]
    dsimp only
    rw [if_pos hu]

/-- A second check-in against the same identifier, after a successful one,
finds the now-stamped ticket and is refused. -/
theorem checkIn_second_attempt (db : DB) (hostId eventId : Nat) (q : String)
    (oid : Option Nat) (fresh : String) (now : Nat) (fresh' : String) (now' : Nat)
    (hnd : (db.tickets.map (fun t => t.tid)).Nodup)
    (h0 : HostRec) (ev : EventRec) (tk : TicketRec)
    (hh0 : findHost db hostId = some h0) (hq : q ≠ "")
    (hev : findEvent db eventId = some ev) (hauth : ev.host = hostId)
    (htk : db.tickets.find? (ticketMatches eventId q oid) = some tk) :
    checkInTicket (stampTicket db tk fresh now) hostId eventId q oid fresh' now'
      = .err .alreadyUsed (stampTicket db tk fresh now) := by
  have hptk : ticketMatches eventId q oid tk = true := List.find?_some htk
  have hmem : tk ∈ db.tickets := List.mem_of_find?_eq_some htk
  have hkey : (stampTicket db tk fresh now).tickets.find? (ticketMatches eventId q oid)
      = some { tk with
               ticketId := if tk.ticketId = "" then fresh else tk.ticketId,
               isUsed := true,
               usedAt := some now } := by
    have h := find?_map_pres (ticketMatches eventId q oid)
      (fun t => if t.tid = tk.tid then
        { t with
          ticketId := if tk.ticketId = "" then fresh else tk.ticketId,
          isUsed := true,
          usedAt := some now }
        else t)
      db.tickets tk htk
      (fun y hy hyf => by
        by_cases hty : y.tid = tk.tid
        · have hyk : y = tk :=
            eq_of_key_nodup (fun t => t.tid) db.tickets hnd y hy tk hmem hty
          rw [hyk, hptk] at hyf
          cases hyf
        · dsimp only
          rw [if_neg hty]
          exact hyf)
      (by
        dsimp only
        rw [if_pos rfl]
        simp only [ticketMatches, decide_eq_true_eq] at hptk ⊢
        obtain ⟨he, hm⟩ := hptk
        refine ⟨he, ?_⟩
        rcases hm with hm | hm
        · left
          rw [if_neg (by rw [hm]; exact hq)]
          exact hm
        · right
          exact hm)
    dsimp only at h
    rw [if_pos rfl] at h
    exact h
  unfold checkInTicket
  have hh0' : findHost (stampTicket db tk fresh now) hostId = some h0 := hh0
  rw [hh0']
  dsimp only
  rw [if_neg hq]
  have hev' : findEvent (stampTicket db tk fresh now) eventId = some ev := hev
  rw [hev']
  dsimp only
  rw [if_neg (by simp [hauth]), hkey]
  dsimp only
  rw [if_pos rfl]

/-- C3: with the store's `_id`s distinct (a database invariant), the first
check-in of a `valid` ticket succeeds and stamps the redemption timestamp
`now`; any further check-in of the same identifier finds the stamped
ticket and fails with `AlreadyUsed`, leaving the store exactly as the
first check-in left it; a check-in of an already-`used` ticket fails with
`AlreadyUsed` and changes nothing; and no modelled operation returns a
`used` ticket to `valid` — check-in and purchase preserve every used
ticket record unchanged, and the ledger/payout operations never write the
ticket collection at all. -/
theorem checkIn_lifecycle (db : DB) (hostId eventId : Nat) (q : String)
    (oid : Option Nat) (fresh : String) (now : Nat)
    (hnd : (db.tickets.map (fun t => t.tid)).Nodup) :
    (∀ h0 ev tk,
       findHost db hostId = some h0 → q ≠ "" → findEvent db eventId = some ev →
       ev.host = hostId →
       db.tickets.find? (ticketMatches eventId q oid) = some tk →
       (tk.isUsed = false →
          checkInTicket db hostId eventId q oid fresh now
            = .ok (stampTicket db tk fresh now) ∧
          ∀ fresh' now',
            checkInTicket (stampTicket db tk fresh now) hostId eventId q oid fresh' now'
              = .err .alreadyUsed (stampTicket db tk fresh now)) ∧
       (tk.isUsed = true →
          checkInTicket db hostId eventId q oid fresh now = .err .alreadyUsed db)) ∧
    (∀ t ∈ db.tickets, t.isUsed = true →
       t ∈ ((checkInTicket db hostId eventId q oid fresh now).db).tickets) ∧
    (∀ eid items ref fees c, ∀ t ∈ db.tickets,
       t ∈ ((purchaseTicket db eid items ref fees c).db).tickets) ∧
    (∀ pid amt ns, ((approvePayout db pid amt ns).db).tickets = db.tickets) ∧
    (∀ pid r, ((rejectPayout db pid r).db).tickets = db.tickets) ∧
    (∀ pid st, ((updatePayoutStatus db pid st).db).tickets = db.tickets) ∧
    (∀ h amt npid, ((requestWithdrawal db h amt npid).db).tickets = db.tickets) ∧
    (∀ h, ((updateHostBalance db h).2).tickets = db.tickets) := by
  refine ⟨?_, ?_, ?_, ?_, ?_, ?_, ?_, ?_⟩
  · intro h0 ev tk hh0 hq hev hauth htk
    refine ⟨fun hnu => ⟨(checkIn_stamp db hostId eventId q oid fresh now
        h0 ev tk hh0 hq hev hauth htk).1 hnu,
      fun fresh' now' => checkIn_second_attempt db hostId eventId q oid fresh now
        fresh' now' hnd h0 ev tk hh0 hq hev hauth htk⟩,
      (checkIn_stamp db hostId eventId q oid fresh now
        h0 ev tk hh0 hq hev hauth htk).2⟩
  · intro t ht hu
    rcases checkInTicket_db_cases db hostId eventId q oid fresh now with
      hc | ⟨tk, htk, hnu, hc⟩
    · rw [hc]
      exact ht
    · rw [hc]
      have htne : t.tid ≠ tk.tid := by
        intro hh
        have heq : t = tk := eq_of_key_nodup (fun t => t.tid) db.tickets hnd t ht tk
          (List.mem_of_find?_eq_some htk) hh
        rw [heq, hnu] at hu
        cases hu
      exact List.mem_map.mpr ⟨t, ht, if_neg htne⟩
  · intro eid items ref fees c t ht
    unfold purchaseTicket
    split
    · exact ht
    · split
      · exact ht
      · rename_i ev hev
        split
        · rename_i e0 db0 hpi
          obtain ⟨-, -, -, -, -, l, hl⟩ :=
            (processItems_frame eid items ev.tickets db 0 [] c).1 _ _ hpi
          show t ∈ db0.tickets
          rw [hl]
          exact List.mem_append_left _ ht
        · rename_i tiers' db0 sub cr c' hpi
          obtain ⟨-, -, -, -, -, l, hl⟩ :=
            (processItems_frame eid items ev.tickets db 0 [] c).2 _ _ _ _ _ hpi
          dsimp only
          split
          · show t ∈ db0.tickets
            rw [hl]
            exact List.mem_append_left _ ht
          · split
            · show t ∈ db0.tickets
              rw [hl]
              exact List.mem_append_left _ ht
            · show t ∈ db0.tickets
              rw [hl]
              exact List.mem_append_left _ ht
  · intro pid amt ns
    unfold approvePayout
    split
    · rfl
    · split
      · rfl
      · split
        · rfl
        · rfl
  · intro pid r
    unfold rejectPayout
    split
    · rfl
    · rfl
  · intro pid st
    unfold updatePayoutStatus
    split
    · rfl
    · split
      · split
        · rfl
        · dsimp only
          split
          · rfl
          · rfl
      · rfl
  · intro h amt npid
    unfold requestWithdrawal
    split
    · rfl
    · split
      · rfl
      · split
        · rfl
        · split
          · rfl
          · dsimp only
            split
            · rfl
            · split
              · rfl
              · rfl
  · intro h
    rfl

/-- Witness for C3: check-in of the example valid ticket "T1" succeeds
once and is refused on the retry. -/
theorem checkIn_lifecycle_witness :
    checkInTicket exDb 1 100 "T1" none "F" 7 =
      .ok (stampTicket exDb
        { tid := 1000, event := 100, price := 500, quantity := 2,
          ticketId := "T1", isUsed := false, usedAt := none } "F" 7) ∧
    checkInTicket (stampTicket exDb
        { tid := 1000, event := 100, price := 500, quantity := 2,
          ticketId := "T1", isUsed := false, usedAt := none } "F" 7)
      1 100 "T1" none "F2" 9
      = .err .alreadyUsed (stampTicket exDb
        { tid := 1000, event := 100, price := 500, quantity := 2,
          ticketId := "T1", isUsed := false, usedAt := none } "F" 7) := by
  have h := ((checkIn_lifecycle exDb 1 100 "T1" none "F" 7 (by decide)).1
    { hid := 1, availableBalance := 0, payoutInfo := some exBank } exEvent
    { tid := 1000, event := 100, price := 500, quantity := 2,
      ticketId := "T1", isUsed := false, usedAt := none }
    (by decide) (by decide) (by decide) (by decide) (by decide)).1 rfl
  exact ⟨h.1, h.2 "F2" 9⟩

end GenPay
